import Mathlib

/-!
Verification of the GPS-bridge firmware (`src/pico/main.py`) against its
natural-language specification.

The Python source is shallowly embedded below:

* byte strings become `List ℕ` (each entry a byte value);
* machine/Python integers become `ℕ`/`ℤ` with explicit `% 256` where the
  source masks with `& 0xFF` (`x >> 8` becomes `x / 256`);
* Python floats become `ℚ`; the float literals appearing in the source
  (`0.3`, `0.25`, `0.5`, the thresholds `5.0 … 10.0`, `46.0`) are all exactly
  representable, and the only genuinely irrational operation, `** 0.5`
  (square root), is threaded through as an explicit parameter or constrained
  by a hypothesis `m * m = …`, never replaced by an approximation;
* Python `int(x)` (truncation toward zero) becomes `pyInt`;
* fallible bus I/O becomes an explicit `BusReply` argument (`ok`/`fault`),
  and a caught exception becomes the `fault` branch yielding `none`;
* the mutable objects (`IST8310`, `NoiseFeedback`, `GpsBridge`) become
  explicit state structures passed to and returned from the step functions;
* the monotonic millisecond clock `time.ticks_ms`/`time.ticks_diff` becomes
  an explicit `now : ℤ` argument with `ticks_diff a b = a - b`.

Writes to the host (USB CDC) and receiver (UART) channels are recorded as an
event trace (`Ev`), so ordering claims about the scheduler loop are stated as
facts about the trace of one iteration.
-/

/-- Python `int(x)`: truncation toward zero of a rational. -/
def pyInt (q : ℚ) : ℤ :=
  if q < 0 then -⌊-q⌋ else ⌊q⌋

/-- Decimal digits of a natural number, most significant first; `fuel`
recursion mirrors repeated `divmod 10` and always suffices for `fuel > n`. -/
def natDigitsAux : ℕ → ℕ → List ℕ
  | 0, _ => []
  | f + 1, n => if n < 10 then [n] else natDigitsAux f (n / 10) ++ [n % 10]

/-- Decimal digits of `n`, most significant first. -/
def natDigits (n : ℕ) : List ℕ :=
  natDigitsAux (n + 1) n

/-- The character for a single decimal digit. -/
def digitChar : ℕ → Char
  | 0 => '0' | 1 => '1' | 2 => '2' | 3 => '3' | 4 => '4'
  | 5 => '5' | 6 => '6' | 7 => '7' | 8 => '8' | 9 => '9'
  | _ => '?'

/-- Decimal rendering of a natural number (Python `str(n)` for `n ≥ 0`). -/
def natDecStr (n : ℕ) : String :=
  String.mk ((natDigits n).map digitChar)

/-- Two decimal digits with a leading zero (the fractional part of `%.2f`). -/
def pad2dec (k : ℕ) : String :=
  if k < 10 then "0" ++ natDecStr k else natDecStr k

/-- Sign prefix of an integer rendering. -/
def pySign (n : ℤ) : String :=
  if n < 0 then "-" else ""

/-- Embedding of Python `f"{q:.2f}"`: round to hundredths and print with
exactly two decimal places.  (CPython rounds the underlying double half to
even; no verified input is a tie, so exact rational rounding agrees.) -/
def fmt2 (q : ℚ) : String :=
  pySign (round (q * 100)) ++ natDecStr ((round (q * 100)).natAbs / 100)
    ++ "." ++ pad2dec ((round (q * 100)).natAbs % 100)

/-- The character for a single uppercase hexadecimal digit. -/
def hexDigitChar : ℕ → Char
  | 0 => '0' | 1 => '1' | 2 => '2' | 3 => '3' | 4 => '4'
  | 5 => '5' | 6 => '6' | 7 => '7' | 8 => '8' | 9 => '9'
  | 10 => 'A' | 11 => 'B' | 12 => 'C' | 13 => 'D' | 14 => 'E' | 15 => 'F'
  | _ => '?'

/-- Hexadecimal digits of a natural number, most significant first. -/
def natHexDigitsAux : ℕ → ℕ → List ℕ
  | 0, _ => []
  | f + 1, n => if n < 16 then [n] else natHexDigitsAux f (n / 16) ++ [n % 16]

/-- Hexadecimal digits of `n`, most significant first. -/
def natHexDigits (n : ℕ) : List ℕ :=
  natHexDigitsAux (n + 1) n

/-- Embedding of Python `f"{n:02X}"`: uppercase hexadecimal, zero-padded to
at least two digits. -/
def hex02 (n : ℕ) : String :=
  String.mk ((if (natHexDigits n).length = 1 then 0 :: natHexDigits n
              else natHexDigits n).map hexDigitChar)

/-- UTF-8 bytes of an ASCII string (`s.encode()` in the source). -/
def stringBytes (s : String) : List ℕ :=
  s.data.map Char.toNat

/-- Result of one register-bus transaction: the value read, or a caught bus
fault (the Python driver wraps every bus access in `try`/`except`). -/
inductive BusReply (α : Type) where
  | ok (val : α)
  | fault
deriving DecidableEq

/-- Six raw data bytes as returned by a 6-byte burst read. -/
abbrev Bytes6 : Type := ℕ × ℕ × ℕ × ℕ × ℕ × ℕ

/-- A write observable on one of the two byte channels: data forwarded to the
host (USB CDC `sys.stdout.buffer.write`) or to the receiver (UART `write`). -/
inductive Ev where
  | toHost (bytes : List ℕ)
  | toUart (bytes : List ℕ)
deriving DecidableEq

namespace UbxCommand

/-- First UBX sync byte. -/
def SYNC_CHAR_1 : ℕ := 0xB5

/-- Second UBX sync byte. -/
def SYNC_CHAR_2 : ℕ := 0x62

/-- UBX class `CFG`. -/
def CLASS_CFG : ℕ := 0x06

/-- UBX class `ESF` (external sensor fusion). -/
def CLASS_ESF : ℕ := 0x10

/-- UBX message id `CFG-MSG`. -/
def ID_CFG_MSG : ℕ := 0x01

/-- UBX message id `ESF-RAW`. -/
def ID_ESF_RAW : ℕ := 0x03

/-- UBX message id `ESF-MEAS`. -/
def ID_ESF_MEAS : ℕ := 0x02

/-- `UbxCommand.calculateChecksum`: the two-accumulator Fletcher-style UBX
checksum, each accumulator masked to 8 bits after every addition. -/
def calculateChecksum (payload : List ℕ) : ℕ × ℕ :=
  payload.foldl (fun ck b => ((ck.1 + b) % 256, (ck.2 + (ck.1 + b) % 256) % 256)) (0, 0)

/-- `UbxCommand.buildMessage`: sync bytes, then class, id, little-endian
payload length (`len & 0xFF` = `len % 256`, `(len >> 8) & 0xFF` =
`len / 256 % 256`), payload, and the two checksum bytes computed over
everything after the sync bytes. -/
def buildMessage (msgClass msgId : ℕ) (payload : List ℕ) : List ℕ :=
  let payloadLen := payload.length
  let msg := [msgClass, msgId, payloadLen % 256, payloadLen / 256 % 256] ++ payload
  let ck := calculateChecksum msg
  [SYNC_CHAR_1, SYNC_CHAR_2] ++ msg ++ [ck.1, ck.2]

/-- `UbxCommand.buildEnableEsfRawCommand`: CFG-MSG with the three-byte
payload `[class ESF, id ESF-RAW, rate 1]`. -/
def buildEnableEsfRawCommand : List ℕ :=
  buildMessage CLASS_CFG ID_CFG_MSG [CLASS_ESF, ID_ESF_RAW, 0x01]

/-- `UbxCommand.buildEnableEsfMeasCommand`: CFG-MSG with the three-byte
payload `[class ESF, id ESF-MEAS, rate 1]`. -/
def buildEnableEsfMeasCommand : List ℕ :=
  buildMessage CLASS_CFG ID_CFG_MSG [CLASS_ESF, ID_ESF_MEAS, 0x01]

end UbxCommand


namespace IST8310

/-- Driver state of the `IST8310` object: the `initialized` flag set by
`initialize()` and consulted by every read. -/
structure State where
  initialized : Bool
deriving DecidableEq

/-- The source's triplicated raw-to-signed conversion: little-endian unsigned
16-bit values greater than `32767` have `65536` subtracted. -/
def toSigned (raw : ℕ) : ℤ :=
  if raw > 32767 then (raw : ℤ) - 65536 else (raw : ℤ)

/-- `IST8310.readMagneticField`: returns `none` while uninitialized; reads the
status register (DRDY is bit 0, `stat & 0x01` = `stat % 2`), then six data
bytes combined little-endian, converted to signed and scaled by the
sensitivity constant `0.3` µT/LSB.  A caught bus fault (`BusReply.fault`)
yields `none`.  The driver state is returned unchanged alongside the result
(the source never assigns `self.initialized` here); the trailing
`triggerMeasurement` bus write swallows its own faults and has no effect on
the driver state, so it is not modelled. -/
def readMagneticField (st : State) (statReply : BusReply ℕ) (dataReply : BusReply Bytes6) :
    Option (ℚ × ℚ × ℚ) × State :=
  if st.initialized = false then (none, st)
  else
    match statReply with
    | .fault => (none, st)
    | .ok stat =>
      if stat % 2 = 0 then (none, st)
      else
        match dataReply with
        | .fault => (none, st)
        | .ok (b0, b1, b2, b3, b4, b5) =>
          let rawX := toSigned (b0 + 256 * b1)
          let rawY := toSigned (b2 + 256 * b3)
          let rawZ := toSigned (b4 + 256 * b5)
          (some ((rawX : ℚ) * (3 / 10), (rawY : ℚ) * (3 / 10), (rawZ : ℚ) * (3 / 10)), st)

/-- XOR of the code points of a character list, the running accumulator of
`calculateNmeaChecksum`. -/
def nmeaXor (l : List Char) : ℕ :=
  l.foldl (fun a c => a ^^^ c.toNat) 0

/-- `IST8310.calculateNmeaChecksum`: XOR of every character's code point,
rendered as two uppercase hexadecimal digits (`f"{checksum:02X}"`). -/
def calculateNmeaChecksum (sentence : String) : String :=
  hex02 (nmeaXor sentence.data)

/-- The `body` string built inside `formatAsNmea`:
`PIMAG,<x>,<y>,<z>,<totalField>` with two-decimal fields. -/
def nmeaBody (magX magY magZ totalField : ℚ) : String :=
  "PIMAG," ++ fmt2 magX ++ "," ++ fmt2 magY ++ "," ++ fmt2 magZ ++ "," ++ fmt2 totalField

/-- `IST8310.formatAsNmea`: `$PIMAG,<x>,<y>,<z>,<totalField>*<CK>\r\n` with
all four fields formatted to two decimal places.  The source computes
`totalField = (magX**2 + magY**2 + magZ**2) ** 0.5` in floating point; since
the square root is irrational in general it is passed here as an explicit
parameter, constrained in the theorems by `totalField² = x² + y² + z²`. -/
def formatAsNmea (magX magY magZ totalField : ℚ) : String :=
  "$" ++ nmeaBody magX magY magZ totalField ++ "*"
    ++ calculateNmeaChecksum (nmeaBody magX magY magZ totalField) ++ "\r\n"

end IST8310

/-- The characters of a sentence strictly between the leading `$` and the
first `*` — the input over which a standard ASCII-sentence checksum is
defined. -/
def betweenDelims (s : String) : List Char :=
  ((s.data.dropWhile (fun c => c ≠ '$')).drop 1).takeWhile (fun c => c ≠ '*')

/-- Noise threshold `NOISE_THRESHOLD_SAFE` (µT). -/
def NOISE_THRESHOLD_SAFE : ℚ := 5

/-- Noise threshold `NOISE_THRESHOLD_CAUTION` (µT). -/
def NOISE_THRESHOLD_CAUTION : ℚ := 6

/-- Noise threshold `NOISE_THRESHOLD_WARNING` (µT). -/
def NOISE_THRESHOLD_WARNING : ℚ := 8

/-- Noise threshold `NOISE_THRESHOLD_DANGER` (µT). -/
def NOISE_THRESHOLD_DANGER : ℚ := 10

/-- `REFERENCE_MAG`: the fixed reference magnetic field (µT). -/
def REFERENCE_MAG : ℚ := 46

/-- `NEOPIXEL_BRIGHTNESS`: the 0.25 brightness scale on every LED write. -/
def NEOPIXEL_BRIGHTNESS : ℚ := 1 / 4

/-- `MAG_READ_INTERVAL_MS`: minimum milliseconds between magnetometer read
attempts. -/
def MAG_READ_INTERVAL_MS : ℤ := 50

namespace NoiseFeedback

/-- State of the `NoiseFeedback` object: enable flags, beep bookkeeping, and
the last values written to the LED ring and the buzzer PWM peripheral. -/
structure State where
  ledEnabled : Bool
  buzzerEnabled : Bool
  lastBeepTime : ℤ
  beepState : Bool
  currentFreq : ℕ
  currentInterval : ℕ
  beepDuration : ℕ
  ledColor : ℤ × ℤ × ℤ
  buzzerFreq : ℕ
  buzzerDuty : ℕ
deriving DecidableEq

/-- The green→yellow-green branch of `calculateColor`
(`NOISE_THRESHOLD_SAFE < noise ≤ NOISE_THRESHOLD_CAUTION`). -/
def cautionColor (noise : ℚ) : ℤ × ℤ × ℤ :=
  (pyInt (128 * ((noise - NOISE_THRESHOLD_SAFE)
      / (NOISE_THRESHOLD_CAUTION - NOISE_THRESHOLD_SAFE))), 255, 0)

/-- The yellow-green→orange branch of `calculateColor`
(`NOISE_THRESHOLD_CAUTION < noise ≤ NOISE_THRESHOLD_WARNING`). -/
def warningColor (noise : ℚ) : ℤ × ℤ × ℤ :=
  (pyInt (128 + 127 * ((noise - NOISE_THRESHOLD_CAUTION)
      / (NOISE_THRESHOLD_WARNING - NOISE_THRESHOLD_CAUTION))),
   pyInt (255 * (1 - (noise - NOISE_THRESHOLD_CAUTION)
      / (NOISE_THRESHOLD_WARNING - NOISE_THRESHOLD_CAUTION) * (1 / 2))), 0)

/-- The orange→red branch of `calculateColor`
(`NOISE_THRESHOLD_WARNING < noise ≤ NOISE_THRESHOLD_DANGER`). -/
def dangerColor (noise : ℚ) : ℤ × ℤ × ℤ :=
  (255, pyInt (128 * (1 - (noise - NOISE_THRESHOLD_WARNING)
      / (NOISE_THRESHOLD_DANGER - NOISE_THRESHOLD_WARNING))), 0)

/-- `NoiseFeedback.calculateColor`: the five-band piecewise gradient from
green through yellow-green and orange to solid red. -/
def calculateColor (noise : ℚ) : ℤ × ℤ × ℤ :=
  if noise ≤ NOISE_THRESHOLD_SAFE then (0, 255, 0)
  else if noise ≤ NOISE_THRESHOLD_CAUTION then cautionColor noise
  else if noise ≤ NOISE_THRESHOLD_WARNING then warningColor noise
  else if noise ≤ NOISE_THRESHOLD_DANGER then dangerColor noise
  else (255, 0, 0)

/-- `NoiseFeedback.calculateBeepParams`: the fixed band table mapping noise
to `(frequency Hz, interval ms)`, `(0, 0)` meaning silence. -/
def calculateBeepParams (noise : ℚ) : ℕ × ℕ :=
  if noise ≤ NOISE_THRESHOLD_SAFE then (0, 0)
  else if noise ≤ NOISE_THRESHOLD_CAUTION then (400, 700)
  else if noise ≤ 7 then (600, 500)
  else if noise ≤ NOISE_THRESHOLD_WARNING then (800, 300)
  else if noise ≤ 9 then (1000, 150)
  else if noise ≤ NOISE_THRESHOLD_DANGER then (1100, 100)
  else (1200, 50)

/-- `NoiseFeedback.setAllLeds`: writes one color to every LED, each channel
scaled by `int(c * NEOPIXEL_BRIGHTNESS)`. -/
def setAllLeds (st : State) (r g b : ℤ) : State :=
  { st with ledColor := (pyInt ((r : ℚ) * NEOPIXEL_BRIGHTNESS),
      pyInt ((g : ℚ) * NEOPIXEL_BRIGHTNESS), pyInt ((b : ℚ) * NEOPIXEL_BRIGHTNESS)) }

/-- `NoiseFeedback.update`: drive the LEDs to the computed color (when LEDs
are enabled) and store the beep frequency and interval for `processBeep`. -/
def update (st : State) (noise : ℚ) : State :=
  let st1 := if st.ledEnabled then
      setAllLeds st (calculateColor noise).1 (calculateColor noise).2.1 (calculateColor noise).2.2
    else st
  { st1 with currentFreq := (calculateBeepParams noise).1,
             currentInterval := (calculateBeepParams noise).2 }

/-- `NoiseFeedback.processBeep`: the non-blocking beep toggle, driven by the
millisecond tick `now` (the source's `time.ticks_ms()`, compared with the
wraparound-safe `time.ticks_diff`, modelled as integer subtraction). -/
def processBeep (st : State) (now : ℤ) : State :=
  if st.buzzerEnabled = false ∨ st.currentFreq = 0 then
    if st.beepState then { st with buzzerDuty := 0, beepState := false } else st
  else if st.beepState then
    if now - st.lastBeepTime ≥ (st.beepDuration : ℤ) then
      { st with buzzerDuty := 0, beepState := false, lastBeepTime := now }
    else st
  else
    if now - st.lastBeepTime ≥
        (if (st.currentInterval : ℤ) - (st.beepDuration : ℤ) < 10 then (10 : ℤ)
         else (st.currentInterval : ℤ) - (st.beepDuration : ℤ)) then
      { st with buzzerFreq := st.currentFreq, buzzerDuty := 32768,
                beepState := true, lastBeepTime := now }
    else st

end NoiseFeedback

namespace GpsBridge

/-- State of the `GpsBridge` object: magnetometer read bookkeeping, the owned
feedback controller and sensor driver, transfer counters, and the heartbeat
LED. -/
structure State where
  lastMagRead : ℤ
  lastNoise : ℚ
  feedback : NoiseFeedback.State
  magSensor : IST8310.State
  bytesReceived : ℕ
  bytesSent : ℕ
  ledState : Bool
  lastLedToggle : ℤ
deriving DecidableEq

/-- `GpsBridge.buildCfgMsgCommand`: CFG-MSG with the eight-byte payload
`[msgClass, msgId, I2C rate, UART1 rate, UART2 rate, USB rate, SPI rate,
reserved]`, fixing I2C/UART2/SPI/reserved to 0 and USB to 1.  The source
re-implements the checksum accumulator loop inline; the loop body is
character-for-character the one in `UbxCommand.calculateChecksum`, so that
fold is reused here. -/
def buildCfgMsgCommand (msgClass msgId uart1Rate : ℕ) : List ℕ :=
  let payload := [msgClass, msgId, 0, uart1Rate, 0, 1, 0, 0]
  let header := [0x06, 0x01]
  let checksumData := header ++ [payload.length % 256, payload.length / 256 % 256] ++ payload
  let ck := UbxCommand.calculateChecksum checksumData
  [0xB5, 0x62] ++ checksumData ++ [ck.1, ck.2]

/-- `GpsBridge.toggleLed`: heartbeat LED toggled at most once per 100 ms. -/
def toggleLed (st : State) (now : ℤ) : State :=
  if now - st.lastLedToggle > 100 then
    { st with ledState := !st.ledState, lastLedToggle := now }
  else st

/-- `GpsBridge.processUartData`: forward available receiver bytes verbatim to
the host channel.  `avail` is the result of `uart.any()`/`uart.read()`:
`none` when nothing is available or the read returned nothing. -/
def processUartData (st : State) (now : ℤ) (avail : Option (List ℕ)) :
    State × List Ev × Bool :=
  match avail with
  | some data =>
    if data.isEmpty then (st, [], false)
    else (toggleLed { st with bytesReceived := st.bytesReceived + data.length } now,
          [Ev.toHost data], true)
  | none => (st, [], false)

/-- `GpsBridge.processUsbData`: forward available host bytes verbatim to the
receiver link.  `none` also covers a caught read exception. -/
def processUsbData (st : State) (avail : Option (List ℕ)) : State × List Ev × Bool :=
  match avail with
  | some data =>
    if data.isEmpty then (st, [], false)
    else ({ st with bytesSent := st.bytesSent + data.length }, [Ev.toUart data], true)
  | none => (st, [], false)

/-- `GpsBridge.processMagneticSensor`: rate-limited magnetometer poll.  When
at least `MAG_READ_INTERVAL_MS` have elapsed, record the tick, attempt one
read; on success compute the noise against `REFERENCE_MAG`, update the
feedback controller, and forward the derived sentence to the host.  `sqrtFn`
interprets the source's floating-point `** 0.5`. -/
def processMagneticSensor (sqrtFn : ℚ → ℚ) (st : State) (now : ℤ)
    (statReply : BusReply ℕ) (dataReply : BusReply Bytes6) : State × List Ev × Bool :=
  if now - st.lastMagRead < MAG_READ_INTERVAL_MS then (st, [], false)
  else
    let st1 := { st with lastMagRead := now }
    let r := IST8310.readMagneticField st1.magSensor statReply dataReply
    let st2 := { st1 with magSensor := r.2 }
    match r.1 with
    | none => (st2, [], false)
    | some (magX, magY, magZ) =>
      let totalField := sqrtFn (magX ^ 2 + magY ^ 2 + magZ ^ 2)
      let noise := |totalField - REFERENCE_MAG|
      ({ st2 with lastNoise := noise,
                  feedback := NoiseFeedback.update st2.feedback noise },
       [Ev.toHost (stringBytes (IST8310.formatAsNmea magX magY magZ totalField))], true)

/-- The environment one iteration of `run`'s main loop observes: the current
tick and the data each poll would yield. -/
structure LoopInput where
  now : ℤ
  uartAvail : Option (List ℕ)
  usbAvail : Option (List ℕ)
  statReply : BusReply ℕ
  dataReply : BusReply Bytes6

/-- One iteration of `GpsBridge.run`'s main loop: receiver→host forwarding,
then host→receiver forwarding, then the magnetometer step, then the beep
step.  (The periodic status print is diagnostic-only and not modelled.) -/
def runIteration (sqrtFn : ℚ → ℚ) (st : State) (inp : LoopInput) : State × List Ev :=
  let u := processUartData st inp.now inp.uartAvail
  let v := processUsbData u.1 inp.usbAvail
  let m := processMagneticSensor sqrtFn v.1 inp.now inp.statReply inp.dataReply
  ({ m.1 with feedback := NoiseFeedback.processBeep m.1.feedback inp.now },
   u.2.1 ++ v.2.1 ++ m.2.1)

end GpsBridge

/-- Claim C1: `buildMessage` produces exactly sync bytes `0xB5 0x62`, class,
id, little-endian length, payload, and two checksum bytes; the frame length
is `8 + payload.length`; the two length bytes encode the payload length; and
re-running the checksum recurrence over the frame's bytes from index 2 up to
but excluding the final two bytes reproduces those two checksum bytes (the
sync bytes are never part of the checksum input). -/
theorem buildMessage_frame_spec (mc mid : ℕ) (p : List ℕ) (hlen : p.length < 65536) :
    UbxCommand.buildMessage mc mid p =
      [0xB5, 0x62] ++ ([mc, mid, p.length % 256, p.length / 256 % 256] ++ p) ++
        [(UbxCommand.calculateChecksum ([mc, mid, p.length % 256, p.length / 256 % 256] ++ p)).1,
         (UbxCommand.calculateChecksum ([mc, mid, p.length % 256, p.length / 256 % 256] ++ p)).2]
    ∧ (UbxCommand.buildMessage mc mid p).length = 8 + p.length
    ∧ p.length % 256 + 256 * (p.length / 256 % 256) = p.length
    ∧ ((UbxCommand.buildMessage mc mid p).drop 2).dropLast.dropLast =
        [mc, mid, p.length % 256, p.length / 256 % 256] ++ p
    ∧ UbxCommand.calculateChecksum (((UbxCommand.buildMessage mc mid p).drop 2).dropLast.dropLast) =
        UbxCommand.calculateChecksum ([mc, mid, p.length % 256, p.length / 256 % 256] ++ p) := by
  have hdrop : ((UbxCommand.buildMessage mc mid p).drop 2).dropLast.dropLast =
      [mc, mid, p.length % 256, p.length / 256 % 256] ++ p := by
    show ((([UbxCommand.SYNC_CHAR_1, UbxCommand.SYNC_CHAR_2] ++ _) ++ _).drop 2).dropLast.dropLast = _
    rw [List.append_assoc, List.drop_append_of_le_length (by simp)]
    simp only [List.drop_succ_cons, List.drop_zero, List.length_cons]
    have h2 : ∀ (l : List ℕ) (a b : ℕ), (l ++ [a, b]).dropLast.dropLast = l := by
      intro l a b
      have : l ++ [a, b] = (l ++ [a]) ++ [b] := by simp
      rw [this, List.dropLast_concat, List.dropLast_concat]
    exact h2 _ _ _
  refine ⟨rfl, ?_, by omega, hdrop, by rw [hdrop]⟩
  show ([UbxCommand.SYNC_CHAR_1, UbxCommand.SYNC_CHAR_2] ++ _ ++ _).length = 8 + p.length
  simp [List.length_append]
  omega

/-- Witness for C1 at class `0x06`, id `0x01`, empty payload. -/
theorem buildMessage_frame_spec_witness :
    ([] : List ℕ).length < 65536
    ∧ (UbxCommand.buildMessage 6 1 [] =
        [0xB5, 0x62] ++ ([6, 1, List.length ([] : List ℕ) % 256,
            List.length ([] : List ℕ) / 256 % 256] ++ []) ++
          [(UbxCommand.calculateChecksum ([6, 1, List.length ([] : List ℕ) % 256,
              List.length ([] : List ℕ) / 256 % 256] ++ [])).1,
           (UbxCommand.calculateChecksum ([6, 1, List.length ([] : List ℕ) % 256,
              List.length ([] : List ℕ) / 256 % 256] ++ [])).2]
      ∧ (UbxCommand.buildMessage 6 1 []).length = 8 + List.length ([] : List ℕ)
      ∧ List.length ([] : List ℕ) % 256 + 256 * (List.length ([] : List ℕ) / 256 % 256) =
          List.length ([] : List ℕ)
      ∧ ((UbxCommand.buildMessage 6 1 []).drop 2).dropLast.dropLast =
          [6, 1, List.length ([] : List ℕ) % 256, List.length ([] : List ℕ) / 256 % 256] ++ []
      ∧ UbxCommand.calculateChecksum (((UbxCommand.buildMessage 6 1 []).drop 2).dropLast.dropLast) =
          UbxCommand.calculateChecksum ([6, 1, List.length ([] : List ℕ) % 256,
            List.length ([] : List ℕ) / 256 % 256] ++ [])) :=
  ⟨by decide, buildMessage_frame_spec 6 1 [] (by decide)⟩

/-- Claim C4: the raw-to-signed conversion subtracts `65536` exactly from
values above `32767`, fixes values up to `32767`, maps `65535 ↦ -1`,
`32768 ↦ -32768`, `0 ↦ 0`, `32767 ↦ 32767`, and each signed component is
scaled by the sensitivity constant `0.3 = 3/10` in the assembled sample. -/
theorem readMagneticField_signed_conversion :
    (∀ raw : ℕ, raw ≤ 32767 → IST8310.toSigned raw = (raw : ℤ))
    ∧ (∀ raw : ℕ, raw > 32767 → IST8310.toSigned raw = (raw : ℤ) - 65536)
    ∧ IST8310.toSigned 65535 = -1
    ∧ IST8310.toSigned 32768 = -32768
    ∧ IST8310.toSigned 0 = 0
    ∧ IST8310.toSigned 32767 = 32767
    ∧ (∀ stat b0 b1 b2 b3 b4 b5 : ℕ, stat % 2 = 1 →
        (IST8310.readMagneticField ⟨true⟩ (.ok stat) (.ok (b0, b1, b2, b3, b4, b5))).1 =
          some (((IST8310.toSigned (b0 + 256 * b1) : ℤ) : ℚ) * (3 / 10),
                ((IST8310.toSigned (b2 + 256 * b3) : ℤ) : ℚ) * (3 / 10),
                ((IST8310.toSigned (b4 + 256 * b5) : ℤ) : ℚ) * (3 / 10))) := by
  refine ⟨?_, ?_, by decide, by decide, by decide, by decide, ?_⟩
  · intro raw h
    simp [IST8310.toSigned, Nat.not_lt.mpr h]
  · intro raw h
    simp [IST8310.toSigned, h]
  · intro stat b0 b1 b2 b3 b4 b5 h
    simp [IST8310.readMagneticField, h]

/-- Witness for C4 at raw value `40000` and a concrete successful read. -/
theorem readMagneticField_signed_conversion_witness :
    ((40000 : ℕ) > 32767 ∧ IST8310.toSigned 40000 = (40000 : ℤ) - 65536)
    ∧ ((1 : ℕ) % 2 = 1
      ∧ (IST8310.readMagneticField ⟨true⟩ (.ok 1) (.ok (255, 255, 0, 128, 10, 0))).1 =
          some (((IST8310.toSigned (255 + 256 * 255) : ℤ) : ℚ) * (3 / 10),
                ((IST8310.toSigned (0 + 256 * 128) : ℤ) : ℚ) * (3 / 10),
                ((IST8310.toSigned (10 + 256 * 0) : ℤ) : ℚ) * (3 / 10))) :=
  ⟨⟨by decide, readMagneticField_signed_conversion.2.1 40000 (by decide)⟩,
   ⟨by decide, readMagneticField_signed_conversion.2.2.2.2.2.2 1 255 255 0 128 10 0 (by decide)⟩⟩

/-- Claim C8: every read while uninitialized returns no data; a bus fault on
either the status read or the data read during an initialized read is caught
and returns no data; and a read never changes the driver state, so the
initialized flag survives arbitrary bus faults and nothing propagates out of
the caller's loop. -/
theorem readMagneticField_error_handling :
    (∀ (sr : BusReply ℕ) (dr : BusReply Bytes6),
        IST8310.readMagneticField ⟨false⟩ sr dr = (none, ⟨false⟩))
    ∧ (∀ (st : IST8310.State) (dr : BusReply Bytes6),
        IST8310.readMagneticField st .fault dr = (none, st))
    ∧ (∀ (st : IST8310.State) (stat : ℕ),
        IST8310.readMagneticField st (.ok stat) .fault = (none, st))
    ∧ (∀ (st : IST8310.State) (sr : BusReply ℕ) (dr : BusReply Bytes6),
        (IST8310.readMagneticField st sr dr).2 = st) := by
  refine ⟨?_, ?_, ?_, ?_⟩
  · intro sr dr
    simp [IST8310.readMagneticField]
  · intro st dr
    by_cases h : st.initialized = false <;> simp [IST8310.readMagneticField, h]
  · intro st stat
    by_cases h : st.initialized = false
    · simp [IST8310.readMagneticField, h]
    · by_cases h2 : stat % 2 = 0 <;> simp [IST8310.readMagneticField, h, h2]
  · intro st sr dr
    unfold IST8310.readMagneticField
    rcases sr with stat | _
    · rcases dr with ⟨b0, b1, b2, b3, b4, b5⟩ | _ <;>
        by_cases h : st.initialized = false <;> by_cases h2 : stat % 2 = 0 <;> simp [h, h2]
    · by_cases h : st.initialized = false <;> simp [h]

/-- Witness for C8: a faulted data read on an initialized driver yields no
data and leaves the driver initialized. -/
theorem readMagneticField_error_handling_witness :
    IST8310.readMagneticField ⟨true⟩ (.ok 1) .fault = (none, ⟨true⟩)
    ∧ (IST8310.readMagneticField ⟨true⟩ .fault (.ok (1, 2, 3, 4, 5, 6))).2 = ⟨true⟩ :=
  ⟨readMagneticField_error_handling.2.2.1 ⟨true⟩ 1,
   readMagneticField_error_handling.2.2.2 ⟨true⟩ .fault (.ok (1, 2, 3, 4, 5, 6))⟩

theorem natDigitsAux_lt (fuel n : ℕ) : ∀ d ∈ natDigitsAux fuel n, d < 10 := by
  induction fuel generalizing n with
  | zero => intro d hd; simp [natDigitsAux] at hd
  | succ f ih =>
    intro d hd
    by_cases h : n < 10
    · simp [natDigitsAux, h] at hd
      omega
    · simp [natDigitsAux, h] at hd
      rcases hd with hd | hd
      · exact ih (n / 10) d hd
      · omega

theorem digitChar_ne_delim (d : ℕ) (h : d < 10) : digitChar d ≠ '$' ∧ digitChar d ≠ '*' := by
  interval_cases d <;> exact ⟨by decide, by decide⟩

theorem natDecStr_ne_delim (n : ℕ) : ∀ c ∈ (natDecStr n).data, c ≠ '$' ∧ c ≠ '*' := by
  intro c hc
  simp only [natDecStr, String.mk, List.mem_map] at hc
  obtain ⟨d, hd, rfl⟩ := hc
  exact digitChar_ne_delim d (natDigitsAux_lt (n + 1) n d hd)

theorem pad2dec_ne_delim (k : ℕ) : ∀ c ∈ (pad2dec k).data, c ≠ '$' ∧ c ≠ '*' := by
  intro c hc
  unfold pad2dec at hc
  split at hc
  · rw [String.data_append] at hc
    rcases List.mem_append.1 hc with hc | hc
    · have : c = '0' := by simpa using hc
      subst this
      exact ⟨by decide, by decide⟩
    · exact natDecStr_ne_delim k c hc
  · exact natDecStr_ne_delim k c hc

theorem pySign_ne_delim (n : ℤ) : ∀ c ∈ (pySign n).data, c ≠ '$' ∧ c ≠ '*' := by
  intro c hc
  unfold pySign at hc
  split at hc
  · have : c = '-' := by simpa using hc
    subst this
    exact ⟨by decide, by decide⟩
  · simp at hc

theorem fmt2_ne_delim (q : ℚ) : ∀ c ∈ (fmt2 q).data, c ≠ '$' ∧ c ≠ '*' := by
  intro c hc
  unfold fmt2 at hc
  simp only [String.data_append, List.mem_append] at hc
  rcases hc with ((hc | hc) | hc) | hc
  · exact pySign_ne_delim _ c hc
  · exact natDecStr_ne_delim _ c hc
  · have : c = '.' := by simpa using hc
    subst this
    exact ⟨by decide, by decide⟩
  · exact pad2dec_ne_delim _ c hc

theorem nmeaBody_ne_delim (x y z m : ℚ) :
    ∀ c ∈ (IST8310.nmeaBody x y z m).data, c ≠ '$' ∧ c ≠ '*' := by
  have hpimag : ∀ c ∈ ("PIMAG,").data, c ≠ '$' ∧ c ≠ '*' := by decide
  have hcomma : ∀ c ∈ (",").data, c ≠ '$' ∧ c ≠ '*' := by decide
  intro c hc
  unfold IST8310.nmeaBody at hc
  simp only [String.data_append, List.mem_append] at hc
  rcases hc with ((((((hc | hc) | hc) | hc) | hc) | hc) | hc) | hc
  · exact hpimag c hc
  · exact fmt2_ne_delim _ c hc
  · exact hcomma c hc
  · exact fmt2_ne_delim _ c hc
  · exact hcomma c hc
  · exact fmt2_ne_delim _ c hc
  · exact hcomma c hc
  · exact fmt2_ne_delim _ c hc

theorem takeWhile_append_cons {α : Type} (p : α → Bool) (l t : List α) (x : α)
    (hl : ∀ c ∈ l, p c = true) (hx : p x = false) :
    (l ++ x :: t).takeWhile p = l := by
  induction l with
  | nil => simp [List.takeWhile_cons, hx]
  | cons a l ih =>
    have ha := hl a (List.mem_cons_self a l)
    simp [List.takeWhile_cons, ha, ih fun c hc => hl c (List.mem_cons_of_mem a hc)]

theorem formatAsNmea_data (x y z m : ℚ) :
    (IST8310.formatAsNmea x y z m).data =
      '$' :: ((IST8310.nmeaBody x y z m).data
        ++ '*' :: ((IST8310.calculateNmeaChecksum (IST8310.nmeaBody x y z m)).data
        ++ ['\r', '\n'])) := by
  show ("$" ++ _ ++ "*" ++ _ ++ "\r\n").data = _
  simp only [String.data_append]
  simp

theorem dropWhile_ne_dollar (l : List Char) :
    (('$' :: l).dropWhile (fun c => c ≠ '$')) = '$' :: l := by
  simp [List.dropWhile_cons]

theorem betweenDelims_formatAsNmea (x y z m : ℚ) :
    betweenDelims (IST8310.formatAsNmea x y z m) = (IST8310.nmeaBody x y z m).data := by
  unfold betweenDelims
  rw [formatAsNmea_data, dropWhile_ne_dollar, List.drop_one, List.tail_cons]
  refine takeWhile_append_cons _ _ _ '*' ?_ (by decide)
  intro c hc
  simpa using (nmeaBody_ne_delim x y z m c hc).2

/-- Claim C5: every produced sentence is exactly
`$PIMAG,<x>,<y>,<z>,<magnitude>*<CK>\r\n` with all four fields formatted to
two decimal places, where the characters strictly between `$` and `*` are
exactly the body and `<CK>` is the two-digit uppercase hexadecimal XOR of
their code points; the magnitude argument is the square root of
`x² + y² + z²` (constrained by hypothesis, as the source computes it with
floating-point `** 0.5`).  Concretely, `(1.0, 0.0, 0.0)` yields
`$PIMAG,1.00,0.00,0.00,1.00*52` with checksum `0x52`, the XOR of the
characters of `PIMAG,1.00,0.00,0.00,1.00`. -/
theorem formatAsNmea_spec :
    (∀ x y z m : ℚ, 0 ≤ m → m * m = x ^ 2 + y ^ 2 + z ^ 2 →
      betweenDelims (IST8310.formatAsNmea x y z m) = (IST8310.nmeaBody x y z m).data
      ∧ IST8310.nmeaBody x y z m =
          "PIMAG," ++ fmt2 x ++ "," ++ fmt2 y ++ "," ++ fmt2 z ++ "," ++ fmt2 m
      ∧ IST8310.formatAsNmea x y z m =
          "$" ++ IST8310.nmeaBody x y z m ++ "*"
            ++ hex02 (IST8310.nmeaXor (betweenDelims (IST8310.formatAsNmea x y z m)))
            ++ "\r\n")
    ∧ IST8310.formatAsNmea 1 0 0 1 = "$PIMAG,1.00,0.00,0.00,1.00*52\r\n"
    ∧ IST8310.nmeaXor ("PIMAG,1.00,0.00,0.00,1.00").data = 0x52 := by
  have h1 : fmt2 1 = "1.00" := by
    unfold fmt2
    rw [show round ((1 : ℚ) * 100) = 100 by norm_num]
    rfl
  have h0 : fmt2 0 = "0.00" := by
    unfold fmt2
    rw [show round ((0 : ℚ) * 100) = 0 by norm_num]
    rfl
  have hbody : IST8310.nmeaBody 1 0 0 1 = "PIMAG,1.00,0.00,0.00,1.00" := by
    unfold IST8310.nmeaBody
    rw [h1, h0]
    rfl
  refine ⟨?_, ?_, by decide⟩
  · intro x y z m _ _
    refine ⟨betweenDelims_formatAsNmea x y z m, rfl, ?_⟩
    rw [betweenDelims_formatAsNmea]
    rfl
  · show "$" ++ _ ++ "*" ++ _ ++ "\r\n" = _
    rw [hbody]
    rfl

/-- Witness for C5 at the sample `(1, 0, 0)` with magnitude `1`. -/
theorem formatAsNmea_spec_witness :
    (0 : ℚ) ≤ 1 ∧ (1 : ℚ) * 1 = 1 ^ 2 + 0 ^ 2 + 0 ^ 2
    ∧ (betweenDelims (IST8310.formatAsNmea 1 0 0 1) = (IST8310.nmeaBody 1 0 0 1).data
      ∧ IST8310.nmeaBody 1 0 0 1 =
          "PIMAG," ++ fmt2 1 ++ "," ++ fmt2 0 ++ "," ++ fmt2 0 ++ "," ++ fmt2 1
      ∧ IST8310.formatAsNmea 1 0 0 1 =
          "$" ++ IST8310.nmeaBody 1 0 0 1 ++ "*"
            ++ hex02 (IST8310.nmeaXor (betweenDelims (IST8310.formatAsNmea 1 0 0 1)))
            ++ "\r\n") :=
  ⟨by norm_num, by norm_num, formatAsNmea_spec.1 1 0 0 1 (by norm_num) (by norm_num)⟩

/-- Counterexample to claim C2 as stated: at the warning/danger band boundary
`noise = 8.0` the lower band's ratio-1 color is `(255, 127, 0)` (the green
channel `int(255 * 0.5)` truncates to 127) while the upper band's ratio-0
color is `(255, 128, 0)`, so the gradient is not continuous at every internal
band boundary. -/
theorem calculateColor_jump_at_8 :
    NoiseFeedback.warningColor 8 = (255, 127, 0)
    ∧ NoiseFeedback.dangerColor 8 = (255, 128, 0)
    ∧ NoiseFeedback.calculateColor 8 = (255, 127, 0)
    ∧ NoiseFeedback.warningColor 8 ≠ NoiseFeedback.dangerColor 8 := by
  have hw : NoiseFeedback.warningColor 8 = (255, 127, 0) := by
    unfold NoiseFeedback.warningColor pyInt
    norm_num [NOISE_THRESHOLD_CAUTION, NOISE_THRESHOLD_WARNING]
  have hd : NoiseFeedback.dangerColor 8 = (255, 128, 0) := by
    unfold NoiseFeedback.dangerColor pyInt
    norm_num [NOISE_THRESHOLD_WARNING, NOISE_THRESHOLD_DANGER]
  refine ⟨hw, hd, ?_, ?_⟩
  · rw [NoiseFeedback.calculateColor]
    norm_num [NOISE_THRESHOLD_SAFE, NOISE_THRESHOLD_CAUTION, NOISE_THRESHOLD_WARNING, hw]
  · rw [hw, hd]
    decide

/-- Claim C2, amended: `calculateColor` gives pure green at 5.0, pure red at
10.0 and beyond (12.0), and the piecewise gradient is continuous at the
boundaries 5.0, 6.0 and 10.0; at the boundary 8.0 the two adjacent band
formulas differ by one in the green channel (`(255,127,0)` from below versus
`(255,128,0)` from above), because `int()` truncates `255 * 0.5 = 127.5`. -/
theorem calculateColor_amended :
    NoiseFeedback.calculateColor 5 = (0, 255, 0)
    ∧ NoiseFeedback.calculateColor 10 = (255, 0, 0)
    ∧ NoiseFeedback.calculateColor 12 = (255, 0, 0)
    ∧ NoiseFeedback.cautionColor 5 = (0, 255, 0)
    ∧ NoiseFeedback.cautionColor 6 = NoiseFeedback.warningColor 6
    ∧ NoiseFeedback.calculateColor 6 = (128, 255, 0)
    ∧ NoiseFeedback.dangerColor 10 = (255, 0, 0)
    ∧ NoiseFeedback.warningColor 8 = (255, 127, 0)
    ∧ NoiseFeedback.dangerColor 8 = (255, 128, 0) := by
  have hc6 : NoiseFeedback.cautionColor 6 = (128, 255, 0) := by
    unfold NoiseFeedback.cautionColor pyInt
    norm_num [NOISE_THRESHOLD_SAFE, NOISE_THRESHOLD_CAUTION]
  have hw6 : NoiseFeedback.warningColor 6 = (128, 255, 0) := by
    unfold NoiseFeedback.warningColor pyInt
    norm_num [NOISE_THRESHOLD_CAUTION, NOISE_THRESHOLD_WARNING]
  have hd10 : NoiseFeedback.dangerColor 10 = (255, 0, 0) := by
    unfold NoiseFeedback.dangerColor pyInt
    norm_num [NOISE_THRESHOLD_WARNING, NOISE_THRESHOLD_DANGER]
  refine ⟨?_, ?_, ?_, ?_, ?_, ?_, hd10, calculateColor_jump_at_8.1, calculateColor_jump_at_8.2.1⟩
  · rw [NoiseFeedback.calculateColor]
    norm_num [NOISE_THRESHOLD_SAFE]
  · rw [NoiseFeedback.calculateColor]
    norm_num [NOISE_THRESHOLD_SAFE, NOISE_THRESHOLD_CAUTION, NOISE_THRESHOLD_WARNING,
      NOISE_THRESHOLD_DANGER, hd10]
  · rw [NoiseFeedback.calculateColor]
    norm_num [NOISE_THRESHOLD_SAFE, NOISE_THRESHOLD_CAUTION, NOISE_THRESHOLD_WARNING,
      NOISE_THRESHOLD_DANGER]
  · unfold NoiseFeedback.cautionColor pyInt
    norm_num [NOISE_THRESHOLD_SAFE, NOISE_THRESHOLD_CAUTION]
  · rw [hc6, hw6]
  · rw [NoiseFeedback.calculateColor]
    norm_num [NOISE_THRESHOLD_SAFE, NOISE_THRESHOLD_CAUTION, hc6]

/-- Counterexample to claim C3 as stated: the ESF-RAW enable command has a
three-byte payload `[class, id, rate]`, so its frame is 11 bytes long, not
the 16 bytes an eight-byte `[msgClass, msgId, rate_0 … rate_5]` payload would
produce. -/
theorem buildEnableEsfRaw_short_payload :
    UbxCommand.buildEnableEsfRawCommand.length = 11 ∧ (11 : ℕ) ≠ 16 :=
  ⟨by decide, by decide⟩

/-- Claim C3, amended: the class-0xF0 "set output rate" commands built by
`buildCfgMsgCommand` carry the eight-byte payload
`[msgClass, msgId, 0, uart1Rate, 0, 1, 0, 0]` — one rate byte per interface
(I2C, UART1, UART2, USB, SPI, reserved) with only UART1's rate set to the
requested value (1 at every call site) and the USB (host) rate always 1 —
and the whole frame coincides with `buildMessage` applied to that payload;
the ESF-RAW/ESF-MEAS enable commands instead use the short three-byte form
`[msgClass, msgId, rate]` with the single rate byte set to 1 (an 11-byte
frame), not the per-interface form. -/
theorem buildCfgMsgCommand_amended :
    (∀ mc mid r : ℕ, GpsBridge.buildCfgMsgCommand mc mid r =
        UbxCommand.buildMessage 0x06 0x01 [mc, mid, 0, r, 0, 1, 0, 0])
    ∧ (∀ mc mid : ℕ, GpsBridge.buildCfgMsgCommand mc mid 1 =
        UbxCommand.buildMessage 0x06 0x01 [mc, mid, 0, 1, 0, 1, 0, 0])
    ∧ UbxCommand.buildEnableEsfRawCommand =
        UbxCommand.buildMessage 0x06 0x01 [0x10, 0x03, 0x01]
    ∧ UbxCommand.buildEnableEsfMeasCommand =
        UbxCommand.buildMessage 0x06 0x01 [0x10, 0x02, 0x01]
    ∧ UbxCommand.buildEnableEsfRawCommand.length = 11
    ∧ UbxCommand.buildEnableEsfMeasCommand.length = 11 :=
  ⟨fun _ _ _ => rfl, fun _ _ => rfl, rfl, rfl, by decide, by decide⟩

/-- Witness for C3's amended claim at the GGA call site
(`buildCfgMsgCommand(0xF0, 0x00, 1)`). -/
theorem buildCfgMsgCommand_amended_witness :
    GpsBridge.buildCfgMsgCommand 0xF0 0x00 1 =
      UbxCommand.buildMessage 0x06 0x01 [0xF0, 0x00, 0, 1, 0, 1, 0, 0] :=
  buildCfgMsgCommand_amended.1 0xF0 0x00 1

/-- Claim C6: `calculateBeepParams` is silent (frequency 0) for every noise
at most 5.0, constant on each of the six ascending bands
`5<n≤6, 6<n≤7, 7<n≤8, 8<n≤9, 9<n≤10, n>10` (upper edges inclusive), with
strictly increasing frequencies 400→1200 Hz and strictly decreasing
intervals 700→50 ms across the bands. -/
theorem calculateBeepParams_bands :
    (∀ n : ℚ, n ≤ 5 → NoiseFeedback.calculateBeepParams n = (0, 0))
    ∧ (∀ n : ℚ, 5 < n → n ≤ 6 → NoiseFeedback.calculateBeepParams n = (400, 700))
    ∧ (∀ n : ℚ, 6 < n → n ≤ 7 → NoiseFeedback.calculateBeepParams n = (600, 500))
    ∧ (∀ n : ℚ, 7 < n → n ≤ 8 → NoiseFeedback.calculateBeepParams n = (800, 300))
    ∧ (∀ n : ℚ, 8 < n → n ≤ 9 → NoiseFeedback.calculateBeepParams n = (1000, 150))
    ∧ (∀ n : ℚ, 9 < n → n ≤ 10 → NoiseFeedback.calculateBeepParams n = (1100, 100))
    ∧ (∀ n : ℚ, 10 < n → NoiseFeedback.calculateBeepParams n = (1200, 50))
    ∧ ((400 : ℕ) < 600 ∧ (600 : ℕ) < 800 ∧ (800 : ℕ) < 1000
        ∧ (1000 : ℕ) < 1100 ∧ (1100 : ℕ) < 1200)
    ∧ ((700 : ℕ) > 500 ∧ (500 : ℕ) > 300 ∧ (300 : ℕ) > 150
        ∧ (150 : ℕ) > 100 ∧ (100 : ℕ) > 50) := by
  refine ⟨?_, ?_, ?_, ?_, ?_, ?_, ?_, by decide, by decide⟩ <;>
    intro n h1 <;>
    first
      | (intro h2
         rw [NoiseFeedback.calculateBeepParams]
         simp only [NOISE_THRESHOLD_SAFE, NOISE_THRESHOLD_CAUTION, NOISE_THRESHOLD_WARNING,
           NOISE_THRESHOLD_DANGER]
         rw [if_neg (by linarith)]
         first
           | rw [if_pos (by linarith)]
           | (rw [if_neg (by linarith)]
              first
                | rw [if_pos (by linarith)]
                | (rw [if_neg (by linarith)]
                   first
                     | rw [if_pos (by linarith)]
                     | (rw [if_neg (by linarith)]
                        first
                          | rw [if_pos (by linarith)]
                          | (rw [if_neg (by linarith)]
                             rw [if_pos (by linarith)])))))
      | (rw [NoiseFeedback.calculateBeepParams]
         simp only [NOISE_THRESHOLD_SAFE, NOISE_THRESHOLD_CAUTION, NOISE_THRESHOLD_WARNING,
           NOISE_THRESHOLD_DANGER]
         first
           | rw [if_pos (by linarith)]
           | (rw [if_neg (by linarith)]
              rw [if_neg (by linarith)]
              rw [if_neg (by linarith)]
              rw [if_neg (by linarith)]
              rw [if_neg (by linarith)]
              rw [if_neg (by linarith)]))

/-- Witness for C6 at representative points of the silent band, the first
beeping band and the top band. -/
theorem calculateBeepParams_bands_witness :
    ((5 : ℚ) ≤ 5 ∧ NoiseFeedback.calculateBeepParams 5 = (0, 0))
    ∧ ((5 : ℚ) < 11 / 2 ∧ (11 / 2 : ℚ) ≤ 6
        ∧ NoiseFeedback.calculateBeepParams (11 / 2) = (400, 700))
    ∧ ((10 : ℚ) < 11 ∧ NoiseFeedback.calculateBeepParams 11 = (1200, 50)) :=
  ⟨⟨by norm_num, calculateBeepParams_bands.1 5 (by norm_num)⟩,
   ⟨by norm_num, by norm_num,
    calculateBeepParams_bands.2.1 (11 / 2) (by norm_num) (by norm_num)⟩,
   ⟨by norm_num, calculateBeepParams_bands.2.2.2.2.2.2.1 11 (by norm_num)⟩⟩

theorem processBeep_silent (st : NoiseFeedback.State) (now : ℤ)
    (h : st.buzzerEnabled = false ∨ st.currentFreq = 0) :
    NoiseFeedback.processBeep st now =
      (if st.beepState then { st with buzzerDuty := 0, beepState := false } else st) := by
  unfold NoiseFeedback.processBeep
  rw [if_pos h]

theorem processBeep_off_on (st : NoiseFeedback.State) (now : ℤ)
    (he : st.buzzerEnabled = true) (hf : st.currentFreq ≠ 0) (hb : st.beepState = false)
    (hw : now - st.lastBeepTime ≥
      (if (st.currentInterval : ℤ) - (st.beepDuration : ℤ) < 10 then (10 : ℤ)
       else (st.currentInterval : ℤ) - (st.beepDuration : ℤ))) :
    NoiseFeedback.processBeep st now =
      { st with buzzerFreq := st.currentFreq, buzzerDuty := 32768,
                beepState := true, lastBeepTime := now } := by
  unfold NoiseFeedback.processBeep
  rw [if_neg (by simp [he, hf]), hb]
  simp only [Bool.false_eq_true, if_false]
  rw [if_pos hw]

theorem processBeep_off_wait (st : NoiseFeedback.State) (now : ℤ)
    (he : st.buzzerEnabled = true) (hf : st.currentFreq ≠ 0) (hb : st.beepState = false)
    (hw : now - st.lastBeepTime <
      (if (st.currentInterval : ℤ) - (st.beepDuration : ℤ) < 10 then (10 : ℤ)
       else (st.currentInterval : ℤ) - (st.beepDuration : ℤ))) :
    NoiseFeedback.processBeep st now = st := by
  unfold NoiseFeedback.processBeep
  rw [if_neg (by simp [he, hf]), hb]
  simp only [Bool.false_eq_true, if_false]
  rw [if_neg (by omega)]

theorem processBeep_on_off (st : NoiseFeedback.State) (now : ℤ)
    (he : st.buzzerEnabled = true) (hf : st.currentFreq ≠ 0) (hb : st.beepState = true)
    (hw : now - st.lastBeepTime ≥ (st.beepDuration : ℤ)) :
    NoiseFeedback.processBeep st now =
      { st with buzzerDuty := 0, beepState := false, lastBeepTime := now } := by
  unfold NoiseFeedback.processBeep
  rw [if_neg (by simp [he, hf]), hb]
  simp only [if_true]
  rw [if_pos hw]

theorem processBeep_on_wait (st : NoiseFeedback.State) (now : ℤ)
    (he : st.buzzerEnabled = true) (hf : st.currentFreq ≠ 0) (hb : st.beepState = true)
    (hw : now - st.lastBeepTime < (st.beepDuration : ℤ)) :
    NoiseFeedback.processBeep st now = st := by
  unfold NoiseFeedback.processBeep
  rw [if_neg (by simp [he, hf]), hb]
  simp only [if_true]
  rw [if_neg (by omega)]

/-- Claim C7: one `processBeep` call makes at most one on/off transition —
from "off" it lands exactly in the "on" state (and from "on" exactly in
"off") no matter how much time has elapsed; the off→on transition fires only
once `waitTime = interval − onDuration` (onDuration 50 ms), floored at
10 ms, has elapsed since the last toggle, and otherwise nothing changes;
with frequency 0 or the buzzer disabled the tone is forced off and no other
field changes; and under increasing, sufficiently spaced ticks the state
alternates on/off. -/
theorem processBeep_spec :
    (∀ (st : NoiseFeedback.State) (now : ℤ),
      st.buzzerEnabled = false ∨ st.currentFreq = 0 →
      (NoiseFeedback.processBeep st now).beepState = false
      ∧ (NoiseFeedback.processBeep st now).buzzerDuty =
          (if st.beepState then 0 else st.buzzerDuty)
      ∧ (NoiseFeedback.processBeep st now).lastBeepTime = st.lastBeepTime
      ∧ (NoiseFeedback.processBeep st now).currentFreq = st.currentFreq
      ∧ (NoiseFeedback.processBeep st now).currentInterval = st.currentInterval
      ∧ (NoiseFeedback.processBeep st now).ledColor = st.ledColor)
    ∧ (∀ (st : NoiseFeedback.State) (now : ℤ),
        st.buzzerEnabled = true → st.currentFreq ≠ 0 → st.beepState = false →
        st.beepDuration = 50 →
        ((now - st.lastBeepTime ≥
            (if (st.currentInterval : ℤ) - 50 < 10 then (10 : ℤ)
             else (st.currentInterval : ℤ) - 50) →
          NoiseFeedback.processBeep st now =
            { st with buzzerFreq := st.currentFreq, buzzerDuty := 32768,
                      beepState := true, lastBeepTime := now })
        ∧ (now - st.lastBeepTime <
            (if (st.currentInterval : ℤ) - 50 < 10 then (10 : ℤ)
             else (st.currentInterval : ℤ) - 50) →
          NoiseFeedback.processBeep st now = st)))
    ∧ (∀ (st : NoiseFeedback.State) (now : ℤ),
        st.buzzerEnabled = true → st.currentFreq ≠ 0 → st.beepState = true →
        ((now - st.lastBeepTime ≥ (st.beepDuration : ℤ) →
          NoiseFeedback.processBeep st now =
            { st with buzzerDuty := 0, beepState := false, lastBeepTime := now })
        ∧ (now - st.lastBeepTime < (st.beepDuration : ℤ) →
          NoiseFeedback.processBeep st now = st)))
    ∧ (∀ (st : NoiseFeedback.State) (t1 t2 : ℤ),
        st.buzzerEnabled = true → st.currentFreq ≠ 0 → st.beepState = false →
        st.beepDuration = 50 →
        t1 - st.lastBeepTime ≥
          (if (st.currentInterval : ℤ) - 50 < 10 then (10 : ℤ)
           else (st.currentInterval : ℤ) - 50) →
        t2 - t1 ≥ 50 →
        (NoiseFeedback.processBeep st t1).beepState = true
        ∧ (NoiseFeedback.processBeep (NoiseFeedback.processBeep st t1) t2).beepState = false) := by
  refine ⟨?_, ?_, ?_, ?_⟩
  · intro st now h
    rw [processBeep_silent st now h]
    by_cases hb : st.beepState <;> simp [hb]
  · intro st now he hf hb hd
    constructor
    · intro hw
      exact processBeep_off_on st now he hf hb (by rw [hd]; exact hw)
    · intro hw
      exact processBeep_off_wait st now he hf hb (by rw [hd]; exact hw)
  · intro st now he hf hb
    exact ⟨processBeep_on_off st now he hf hb, processBeep_on_wait st now he hf hb⟩
  · intro st t1 t2 he hf hb hd h1 h2
    have hstep1 : NoiseFeedback.processBeep st t1 =
        { st with buzzerFreq := st.currentFreq, buzzerDuty := 32768,
                  beepState := true, lastBeepTime := t1 } :=
      processBeep_off_on st t1 he hf hb (by rw [hd]; exact h1)
    refine ⟨by rw [hstep1], ?_⟩
    have hstep2 := processBeep_on_off (NoiseFeedback.processBeep st t1) t2
      (by rw [hstep1]; exact he) (by rw [hstep1]; exact hf) (by rw [hstep1])
      (by rw [hstep1]; show t2 - t1 ≥ ((st.beepDuration : ℕ) : ℤ); rw [hd]; omega)
    rw [hstep2]

/-- Witness for C7 on a concrete off-state with interval 700 ms: the beep
turns on at tick 650 and off again at tick 700. -/
theorem processBeep_spec_witness :
    ((NoiseFeedback.State.mk true true 0 false 400 700 50 (0, 255, 0) 0 0).buzzerEnabled = true
    ∧ (NoiseFeedback.State.mk true true 0 false 400 700 50 (0, 255, 0) 0 0).currentFreq ≠ 0
    ∧ (NoiseFeedback.State.mk true true 0 false 400 700 50 (0, 255, 0) 0 0).beepState = false
    ∧ (NoiseFeedback.State.mk true true 0 false 400 700 50 (0, 255, 0) 0 0).beepDuration = 50
    ∧ (650 : ℤ) - (NoiseFeedback.State.mk true true 0 false 400 700 50 (0, 255, 0) 0 0).lastBeepTime ≥
        (if ((NoiseFeedback.State.mk true true 0 false 400 700 50 (0, 255, 0) 0 0).currentInterval : ℤ)
            - 50 < 10 then (10 : ℤ)
         else ((NoiseFeedback.State.mk true true 0 false 400 700 50 (0, 255, 0) 0 0).currentInterval : ℤ) - 50)
    ∧ (700 : ℤ) - 650 ≥ 50)
    ∧ (NoiseFeedback.processBeep
        (NoiseFeedback.State.mk true true 0 false 400 700 50 (0, 255, 0) 0 0) 650).beepState = true
    ∧ (NoiseFeedback.processBeep (NoiseFeedback.processBeep
        (NoiseFeedback.State.mk true true 0 false 400 700 50 (0, 255, 0) 0 0) 650) 700).beepState = false := by
  have h := processBeep_spec.2.2.2 (NoiseFeedback.State.mk true true 0 false 400 700 50 (0, 255, 0) 0 0)
    650 700 (by decide) (by decide) (by decide) (by decide) (by decide) (by decide)
  exact ⟨⟨by decide, by decide, by decide, by decide, by decide, by decide⟩, h.1, h.2⟩

theorem readMagneticField_state_id (st : IST8310.State) (sr : BusReply ℕ) (dr : BusReply Bytes6) :
    (IST8310.readMagneticField st sr dr).2 = st :=
  readMagneticField_error_handling.2.2.2 st sr dr

/-- Claim C10: whenever the rate limit allows an attempt, the current tick is
recorded as `lastMagRead` before the read — so the 50 ms limit gates read
attempts, not successful samples — and an attempt that yields no data writes
nothing to the host and leaves the whole feedback state (LED color, beep
frequency, beep interval) and the last noise value unchanged. -/
theorem processMagneticSensor_frame (sqrtFn : ℚ → ℚ) (st : GpsBridge.State) (now : ℤ)
    (sr : BusReply ℕ) (dr : BusReply Bytes6)
    (hdue : now - st.lastMagRead ≥ MAG_READ_INTERVAL_MS) :
    (GpsBridge.processMagneticSensor sqrtFn st now sr dr).1.lastMagRead = now
    ∧ ((IST8310.readMagneticField st.magSensor sr dr).1 = none →
        GpsBridge.processMagneticSensor sqrtFn st now sr dr =
          ({ st with lastMagRead := now }, [], false)) := by
  have hid := readMagneticField_state_id st.magSensor sr dr
  unfold GpsBridge.processMagneticSensor
  rw [if_neg (by omega)]
  constructor
  · cases hres : (IST8310.readMagneticField st.magSensor sr dr).1 with
    | none => simp [hres]
    | some v =>
      obtain ⟨x, y, z⟩ := v
      simp [hres]
  · intro hnone
    simp [hnone, hid]

/-- Witness for C10: an attempt at tick 100 whose status read faults records
`lastMagRead = 100`, emits nothing, and changes nothing else. -/
theorem processMagneticSensor_frame_witness :
    ((100 : ℤ) -
        (GpsBridge.State.mk 0 0
          (NoiseFeedback.State.mk true true 0 false 0 0 50 (0, 0, 0) 0 0)
          ⟨true⟩ 0 0 false 0).lastMagRead ≥ MAG_READ_INTERVAL_MS)
    ∧ (GpsBridge.processMagneticSensor (fun _ => 0)
        (GpsBridge.State.mk 0 0
          (NoiseFeedback.State.mk true true 0 false 0 0 50 (0, 0, 0) 0 0)
          ⟨true⟩ 0 0 false 0) 100 .fault (.ok (1, 2, 3, 4, 5, 6))).1.lastMagRead = 100
    ∧ ((IST8310.readMagneticField
          (GpsBridge.State.mk 0 0
            (NoiseFeedback.State.mk true true 0 false 0 0 50 (0, 0, 0) 0 0)
            ⟨true⟩ 0 0 false 0).magSensor .fault (.ok (1, 2, 3, 4, 5, 6))).1 = none →
        GpsBridge.processMagneticSensor (fun _ => 0)
          (GpsBridge.State.mk 0 0
            (NoiseFeedback.State.mk true true 0 false 0 0 50 (0, 0, 0) 0 0)
            ⟨true⟩ 0 0 false 0) 100 .fault (.ok (1, 2, 3, 4, 5, 6)) =
          ({ GpsBridge.State.mk 0 0
              (NoiseFeedback.State.mk true true 0 false 0 0 50 (0, 0, 0) 0 0)
              ⟨true⟩ 0 0 false 0 with lastMagRead := 100 }, [], false)) := by
  have h := processMagneticSensor_frame (fun _ => 0)
    (GpsBridge.State.mk 0 0 (NoiseFeedback.State.mk true true 0 false 0 0 50 (0, 0, 0) 0 0)
      ⟨true⟩ 0 0 false 0) 100 .fault (.ok (1, 2, 3, 4, 5, 6)) (by decide)
  exact ⟨by decide, h.1, h.2⟩

/-- Claim C9: in every loop iteration the four steps happen in the fixed
order receiver→host forwarding, host→receiver forwarding, magnetometer step,
beep step: the iteration's write trace is exactly the uart step's events,
then the usb step's events, then the magnetometer step's events; the first
two steps emit only host-writes resp. receiver-writes and never touch the
magnetometer/feedback state; the magnetometer step is attempted only when at
least `MAG_READ_INTERVAL_MS` have elapsed; on a successful sample the noise
`|magnitude − REFERENCE_MAG|` is fed to `NoiseFeedback.update` and the
derived sentence is forwarded to the host; and finally the beep step runs on
the magnetometer step's feedback state with the current tick. -/
theorem runIteration_order (sqrtFn : ℚ → ℚ) (st : GpsBridge.State) (inp : GpsBridge.LoopInput) :
    (GpsBridge.runIteration sqrtFn st inp).2 =
      (GpsBridge.processUartData st inp.now inp.uartAvail).2.1
      ++ (GpsBridge.processUsbData
            (GpsBridge.processUartData st inp.now inp.uartAvail).1 inp.usbAvail).2.1
      ++ (GpsBridge.processMagneticSensor sqrtFn
            (GpsBridge.processUsbData
              (GpsBridge.processUartData st inp.now inp.uartAvail).1 inp.usbAvail).1
            inp.now inp.statReply inp.dataReply).2.1
    ∧ (GpsBridge.runIteration sqrtFn st inp).1.feedback =
        NoiseFeedback.processBeep
          (GpsBridge.processMagneticSensor sqrtFn
            (GpsBridge.processUsbData
              (GpsBridge.processUartData st inp.now inp.uartAvail).1 inp.usbAvail).1
            inp.now inp.statReply inp.dataReply).1.feedback inp.now
    ∧ (∀ e ∈ (GpsBridge.processUartData st inp.now inp.uartAvail).2.1,
        ∃ d, e = Ev.toHost d)
    ∧ (∀ e ∈ (GpsBridge.processUsbData
          (GpsBridge.processUartData st inp.now inp.uartAvail).1 inp.usbAvail).2.1,
        ∃ d, e = Ev.toUart d)
    ∧ (GpsBridge.processUsbData
          (GpsBridge.processUartData st inp.now inp.uartAvail).1 inp.usbAvail).1.feedback =
        st.feedback
    ∧ (GpsBridge.processUsbData
          (GpsBridge.processUartData st inp.now inp.uartAvail).1 inp.usbAvail).1.lastMagRead =
        st.lastMagRead
    ∧ (GpsBridge.processUsbData
          (GpsBridge.processUartData st inp.now inp.uartAvail).1 inp.usbAvail).1.magSensor =
        st.magSensor
    ∧ (inp.now - st.lastMagRead < MAG_READ_INTERVAL_MS →
        (GpsBridge.processMagneticSensor sqrtFn
          (GpsBridge.processUsbData
            (GpsBridge.processUartData st inp.now inp.uartAvail).1 inp.usbAvail).1
          inp.now inp.statReply inp.dataReply).2.1 = []
        ∧ (GpsBridge.processMagneticSensor sqrtFn
            (GpsBridge.processUsbData
              (GpsBridge.processUartData st inp.now inp.uartAvail).1 inp.usbAvail).1
            inp.now inp.statReply inp.dataReply).1 =
          (GpsBridge.processUsbData
            (GpsBridge.processUartData st inp.now inp.uartAvail).1 inp.usbAvail).1)
    ∧ (∀ x y z : ℚ,
        (IST8310.readMagneticField st.magSensor inp.statReply inp.dataReply).1 = some (x, y, z) →
        inp.now - st.lastMagRead ≥ MAG_READ_INTERVAL_MS →
        (GpsBridge.processMagneticSensor sqrtFn
          (GpsBridge.processUsbData
            (GpsBridge.processUartData st inp.now inp.uartAvail).1 inp.usbAvail).1
          inp.now inp.statReply inp.dataReply).1.feedback =
          NoiseFeedback.update st.feedback
            |sqrtFn (x ^ 2 + y ^ 2 + z ^ 2) - REFERENCE_MAG|
        ∧ (GpsBridge.processMagneticSensor sqrtFn
            (GpsBridge.processUsbData
              (GpsBridge.processUartData st inp.now inp.uartAvail).1 inp.usbAvail).1
            inp.now inp.statReply inp.dataReply).1.lastNoise =
          |sqrtFn (x ^ 2 + y ^ 2 + z ^ 2) - REFERENCE_MAG|
        ∧ (GpsBridge.processMagneticSensor sqrtFn
            (GpsBridge.processUsbData
              (GpsBridge.processUartData st inp.now inp.uartAvail).1 inp.usbAvail).1
            inp.now inp.statReply inp.dataReply).2.1 =
          [Ev.toHost (stringBytes
            (IST8310.formatAsNmea x y z (sqrtFn (x ^ 2 + y ^ 2 + z ^ 2))))]) := by
  have hu : (GpsBridge.processUartData st inp.now inp.uartAvail).1.feedback = st.feedback
      ∧ (GpsBridge.processUartData st inp.now inp.uartAvail).1.lastMagRead = st.lastMagRead
      ∧ (GpsBridge.processUartData st inp.now inp.uartAvail).1.magSensor = st.magSensor := by
    rcases inp.uartAvail with _ | data
    · exact ⟨rfl, rfl, rfl⟩
    · by_cases hde : data.isEmpty <;>
        by_cases ht : inp.now - st.lastLedToggle > 100 <;>
        simp [GpsBridge.processUartData, GpsBridge.toggleLed, hde, ht]
  have hv : (GpsBridge.processUsbData
        (GpsBridge.processUartData st inp.now inp.uartAvail).1 inp.usbAvail).1.feedback =
          st.feedback
      ∧ (GpsBridge.processUsbData
          (GpsBridge.processUartData st inp.now inp.uartAvail).1 inp.usbAvail).1.lastMagRead =
          st.lastMagRead
      ∧ (GpsBridge.processUsbData
          (GpsBridge.processUartData st inp.now inp.uartAvail).1 inp.usbAvail).1.magSensor =
          st.magSensor := by
    rcases inp.usbAvail with _ | data
    · exact hu
    · by_cases hde : data.isEmpty <;>
        simp [GpsBridge.processUsbData, hde, hu.1, hu.2.1, hu.2.2]
  refine ⟨rfl, rfl, ?_, ?_, hv.1, hv.2.1, hv.2.2, ?_, ?_⟩
  · rcases inp.uartAvail with _ | data
    · intro e he; simp [GpsBridge.processUartData] at he
    · by_cases hde : data.isEmpty <;> intro e he <;>
        simp [GpsBridge.processUartData, hde] at he
      exact ⟨data, he⟩
  · rcases inp.usbAvail with _ | data
    · intro e he; simp [GpsBridge.processUsbData] at he
    · by_cases hde : data.isEmpty <;> intro e he <;>
        simp [GpsBridge.processUsbData, hde] at he
      exact ⟨data, he⟩
  · intro hearly
    unfold GpsBridge.processMagneticSensor
    rw [hv.2.1, if_pos (by omega)]
    exact ⟨rfl, rfl⟩
  · intro x y z hsome hdue
    unfold GpsBridge.processMagneticSensor
    rw [hv.2.1, if_neg (by omega)]
    simp only [hv.2.2, hsome, hv.1,
      readMagneticField_state_id st.magSensor inp.statReply inp.dataReply]
    exact ⟨trivial, trivial, trivial⟩

/-- Witness for C9: a concrete iteration at tick 100 with an idle link and a
successful zero-field sample feeds noise `|0 − 46|` to the feedback update
and forwards the derived sentence. -/
theorem runIteration_order_witness :
    (IST8310.readMagneticField (⟨true⟩ : IST8310.State) (.ok 1) (.ok (0, 0, 0, 0, 0, 0))).1 =
        some (0, 0, 0)
    ∧ (100 : ℤ) - (GpsBridge.State.mk 0 0
        (NoiseFeedback.State.mk true true 0 false 0 0 50 (0, 0, 0) 0 0)
        ⟨true⟩ 0 0 false 0).lastMagRead ≥ MAG_READ_INTERVAL_MS
    ∧ ((GpsBridge.processMagneticSensor (fun _ => (0 : ℚ))
        (GpsBridge.State.mk 0 0
          (NoiseFeedback.State.mk true true 0 false 0 0 50 (0, 0, 0) 0 0)
          ⟨true⟩ 0 0 false 0) 100 (.ok 1) (.ok (0, 0, 0, 0, 0, 0))).1.feedback =
          NoiseFeedback.update
            (NoiseFeedback.State.mk true true 0 false 0 0 50 (0, 0, 0) 0 0)
            |(fun _ => (0 : ℚ)) ((0 : ℚ) ^ 2 + (0 : ℚ) ^ 2 + (0 : ℚ) ^ 2) - REFERENCE_MAG|
      ∧ (GpsBridge.processMagneticSensor (fun _ => (0 : ℚ))
          (GpsBridge.State.mk 0 0
            (NoiseFeedback.State.mk true true 0 false 0 0 50 (0, 0, 0) 0 0)
            ⟨true⟩ 0 0 false 0) 100 (.ok 1) (.ok (0, 0, 0, 0, 0, 0))).1.lastNoise =
            |(fun _ => (0 : ℚ)) ((0 : ℚ) ^ 2 + (0 : ℚ) ^ 2 + (0 : ℚ) ^ 2) - REFERENCE_MAG|
      ∧ (GpsBridge.processMagneticSensor (fun _ => (0 : ℚ))
          (GpsBridge.State.mk 0 0
            (NoiseFeedback.State.mk true true 0 false 0 0 50 (0, 0, 0) 0 0)
            ⟨true⟩ 0 0 false 0) 100 (.ok 1) (.ok (0, 0, 0, 0, 0, 0))).2.1 =
          [Ev.toHost (stringBytes (IST8310.formatAsNmea 0 0 0
            ((fun _ => (0 : ℚ)) ((0 : ℚ) ^ 2 + (0 : ℚ) ^ 2 + (0 : ℚ) ^ 2))))]) := by
  have hsome : (IST8310.readMagneticField (⟨true⟩ : IST8310.State) (.ok 1)
      (.ok (0, 0, 0, 0, 0, 0))).1 = some (0, 0, 0) := by
    norm_num [IST8310.readMagneticField, IST8310.toSigned]
  have hdue : (100 : ℤ) - (0 : ℤ) ≥ MAG_READ_INTERVAL_MS := by decide
  exact ⟨hsome, hdue,
    (runIteration_order (fun _ => (0 : ℚ))
      (GpsBridge.State.mk 0 0 (NoiseFeedback.State.mk true true 0 false 0 0 50 (0, 0, 0) 0 0)
        ⟨true⟩ 0 0 false 0)
      (GpsBridge.LoopInput.mk 100 none none (.ok 1) (.ok (0, 0, 0, 0, 0, 0)))).2.2.2.2.2.2.2.2
      0 0 0 hsome hdue⟩
